import Mathlib

/-!
Verification of the HomeBot polling notifier (homework.py, exceptions.py).

The Python program is shallowly embedded: JSON-like Python values become the
inductive type PyValue; each Python function becomes a Lean function of the
same name; exceptions become the Except monad over the PyExn type, whose
constructors mirror the exception classes raised by the program (builtins
plus the classes of exceptions.py); external effects (the HTTP request and
the chat delivery call) are supplied as explicit oracle arguments; log lines
and delivery attempts are collected in the result of each operation.
-/

set_option autoImplicit false

namespace HomeBot

/-- A Python value as it can appear in a decoded JSON payload (dict keys are
strings, which is all JSON and this program ever produce). -/
inductive PyValue where
  | none
  | bool (b : Bool)
  | int (n : Int)
  | str (s : String)
  | list (xs : List PyValue)
  | dict (kvs : List (String × PyValue))

/-- The Python exceptions this program can raise or handle: the classes of
exceptions.py, the builtins it raises, and the UnboundLocalError that an
unassigned local variable reference raises. -/
inductive PyExn where
  | connectionError (msg : String)
  | customAPIResponseError (msg : String)
  | jsonDecodeError (msg : String)
  | typeError (msg : String)
  | keyError (msg : String)
  | indexError (msg : String)
  | homeworkVerdictNotFound (msg : String)
  | notForSendingError (msg : String)
  | telegramError (msg : String)
  | otherError (msg : String)
  | unboundLocalError (name : String)
deriving DecidableEq, Repr

/-- Membership in the class TelegramError of exceptions.py. -/
def isTelegramError : PyExn → Bool
  | .telegramError _ => true
  | _ => false

/-- Membership in the class NotForSendingError of exceptions.py;
TelegramError is declared as its subclass. -/
def isNotForSendingError : PyExn → Bool
  | .telegramError _ => true
  | .notForSendingError _ => true
  | _ => false

/-- The str() of an exception: its message argument; for KeyError, Python
shows the repr of the key message, wrapped in quotes. -/
def exnStr : PyExn → String
  | .connectionError m => m
  | .customAPIResponseError m => m
  | .jsonDecodeError m => m
  | .typeError m => m
  | .keyError m => "\x27" ++ m ++ "\x27"
  | .indexError m => m
  | .homeworkVerdictNotFound m => m
  | .notForSendingError m => m
  | .telegramError m => m
  | .otherError m => m
  | .unboundLocalError n =>
      "cannot access local variable \x27" ++ n ++ "\x27 where it is not associated with a value"

/-- The short type name Python reports for a value. -/
def pyTypeShort : PyValue → String
  | .none => "NoneType"
  | .bool _ => "bool"
  | .int _ => "int"
  | .str _ => "str"
  | .list _ => "list"
  | .dict _ => "dict"

/-- The str() of type(v), as interpolated by an f-string. -/
def pyTypeName (v : PyValue) : String :=
  "<class \x27" ++ pyTypeShort v ++ "\x27>"

mutual

/-- The repr() of a value (string escaping inside repr is elided: the
program only ever formats plain text through it). -/
def pyRepr : PyValue → String
  | .none => "None"
  | .bool b => if b then "True" else "False"
  | .int n => toString n
  | .str s => "\x27" ++ s ++ "\x27"
  | .list xs => "[" ++ pyReprList xs ++ "]"
  | .dict kvs => "\x7b" ++ pyReprKvs kvs ++ "\x7d"

/-- Comma-separated reprs of the elements of a list. -/
def pyReprList : List PyValue → String
  | [] => ""
  | [x] => pyRepr x
  | x :: xs => pyRepr x ++ ", " ++ pyReprList xs

/-- Comma-separated reprs of the entries of a dict. -/
def pyReprKvs : List (String × PyValue) → String
  | [] => ""
  | [(k, v)] => "\x27" ++ k ++ "\x27: " ++ pyRepr v
  | (k, v) :: kvs => "\x27" ++ k ++ "\x27: " ++ pyRepr v ++ ", " ++ pyReprKvs kvs

end

/-- The str() of a value, as interpolated by an f-string. -/
def pyStr : PyValue → String
  | .str s => s
  | v => pyRepr v

mutual

/-- Python equality on these values (used only for list membership). -/
def pyBeq : PyValue → PyValue → Bool
  | .none, .none => true
  | .bool a, .bool b => a == b
  | .int a, .int b => a == b
  | .str a, .str b => a == b
  | .list a, .list b => pyBeqList a b
  | .dict a, .dict b => pyBeqKvs a b
  | _, _ => false

/-- Elementwise Python equality of lists. -/
def pyBeqList : List PyValue → List PyValue → Bool
  | [], [] => true
  | a :: as, b :: bs => pyBeq a b && pyBeqList as bs
  | _, _ => false

/-- Entrywise Python equality of dicts (order-sensitive, which is all the
program exercises). -/
def pyBeqKvs : List (String × PyValue) → List (String × PyValue) → Bool
  | [], [] => true
  | (k, a) :: as, (l, b) :: bs => k == l && pyBeq a b && pyBeqKvs as bs
  | _, _ => false

end

/-- The Python expression x in v for a string x: key membership on a dict,
element membership on a list, substring test on a string, TypeError
otherwise. -/
def pyContains (container : PyValue) (x : String) : Except PyExn Bool :=
  match container with
  | .dict kvs => .ok (kvs.any (fun kv => kv.1 == x))
  | .list xs => .ok (xs.any (fun v => pyBeq v (.str x)))
  | .str s => .ok (if x == "" then true else (s.splitOn x).length > 1)
  | c => .error (.typeError ("argument of type \x27" ++ pyTypeShort c ++ "\x27 is not iterable"))

/-- The Python expression v[k] for a string key k. -/
def pySubscript (v : PyValue) (k : String) : Except PyExn PyValue :=
  match v with
  | .dict kvs =>
      match kvs.lookup k with
      | some x => .ok x
      | Option.none => .error (.keyError k)
  | .list _ => .error (.typeError "list indices must be integers or slices, not str")
  | .str _ => .error (.typeError "string indices must be integers, not \x27str\x27")
  | c => .error (.typeError ("\x27" ++ pyTypeShort c ++ "\x27 object is not subscriptable"))

/-- The Python expression v.get(k, default) on a dict v (the program only
calls it on values already checked to be dicts). -/
def pyDictGetD (v : PyValue) (k : String) (default : PyValue) : PyValue :=
  match v with
  | .dict kvs => (kvs.lookup k).getD default
  | _ => default

/-- The Python test isinstance(v, dict). -/
def isDict : PyValue → Bool
  | .dict _ => true
  | _ => false

/-- The Python test isinstance(v, list). -/
def isList : PyValue → Bool
  | .list _ => true
  | _ => false

/-- Whether the first char list starts the second (used for the substring
test below). -/
def charsStartWith : List Char → List Char → Bool
  | [], _ => true
  | _ :: _, [] => false
  | a :: as, b :: bs => a == b && charsStartWith as bs

/-- Whether the first char list occurs inside the second. -/
def charsHaveSub (pat : List Char) : List Char → Bool
  | [] => pat.isEmpty
  | c :: cs => charsStartWith pat (c :: cs) || charsHaveSub pat cs

/-- Whether pat occurs as a substring of s (used to state what an error
message does and does not mention). -/
def strHasSub (s pat : String) : Bool :=
  charsHaveSub pat.data s.data

/-- The key-membership test on HOMEWORK_VERDICTS (a dict with string keys):
an unhashable key (list or dict) raises TypeError, any other non-matching
value is simply not a member. -/
def pyVerdictsContains (kvs : List (String × String)) (key : PyValue) : Except PyExn Bool :=
  match key with
  | .list _ => .error (.typeError "unhashable type: \x27list\x27")
  | .dict _ => .error (.typeError "unhashable type: \x27dict\x27")
  | .str s => .ok ((kvs.lookup s).isSome)
  | _ => .ok false

/-! The module-level constants of homework.py. -/

/-- Poll interval in seconds. -/
def RETRY_PERIOD : Nat := 600

/-- The polling endpoint URL. -/
def ENDPOINT : String := "https://practicum.yandex.ru/api/user_api/homework_statuses/"

/-- Request headers derived from the API token. -/
def HEADERS (practicumToken : String) : List (String × String) :=
  [("Authorization", "OAuth " ++ practicumToken)]

/-- Request timeout constant. -/
def TIMEOUT : Nat := 10

/-- The fixed status-to-verdict vocabulary. -/
def HOMEWORK_VERDICTS : List (String × String) :=
  [("approved", "Работа проверена: ревьюеру всё понравилось. Ура!"),
   ("reviewing", "Работа взята на проверку ревьюером."),
   ("rejected", "Работа проверена: у ревьюера есть замечания.")]

/-- The str() of HOMEWORK_VERDICTS.keys(), as interpolated by the f-string
in parse_status. -/
def HOMEWORK_VERDICTS_keysStr : String :=
  "dict_keys([\x27approved\x27, \x27reviewing\x27, \x27rejected\x27])"

/-- The repr of the generator object that the KeyError f-string in
parse_status interpolates instead of the missing key names; at run time it
ends in a memory address, fixed here to a constant, and in any run it never
contains the missing key names themselves. -/
def genexprRepr : String :=
  "<generator object parse_status.<locals>.<genexpr> at 0x000000000000>"

/-- Log levels used by the program. -/
inductive LogLevel where
  | debug
  | info
  | error
  | critical
deriving DecidableEq, Repr

/-- A log line: level and message. -/
abbrev LogLine := LogLevel × String

/-- Outcome of one network GET to the endpoint, supplied as an oracle: a
requests.RequestException with the given str(), or an HTTP response with a
status code and the outcome of decoding its body as JSON (the error carries
the str() of the json.JSONDecodeError). -/
inductive HttpOutcome where
  | requestException (msg : String)
  | response (status_code : Nat) (body : Except String PyValue)

/-- Outcome of one bot.send_message call to the chat, supplied as an
oracle: delivery succeeds, or it raises with the given str(); the two raise
variants distinguish the exceptions.TelegramError class from any other
exception class. -/
inductive DeliveryOutcome where
  | delivered
  | raiseTelegram (msg : String)
  | raiseOther (msg : String)
deriving DecidableEq, Repr

/-- The truthiness Python assigns to an os.getenv result: None and the
empty string are falsy, any nonempty string is truthy. -/
def envTruthy : Option String → Bool
  | Option.none => false
  | some s => !s.isEmpty

/-- check_tokens of homework.py: all([PRACTICUM_TOKEN, TELEGRAM_TOKEN,
TELEGRAM_CHAT_ID]) over the three environment values. -/
def check_tokens (practicumToken telegramToken telegramChatId : Option String) : Bool :=
  [practicumToken, telegramToken, telegramChatId].all envTruthy

/-- The query parameters built by get_api_answer: params has the single key
from_date holding the current cursor. -/
def request_params (timestamp : PyValue) : List (String × PyValue) :=
  [("from_date", timestamp)]

/-- get_api_answer of homework.py: a RequestException becomes
ConnectionError, a non-200 status becomes CustomAPIResponseError carrying
the status, a JSON decode failure becomes the JSONDecodeError class of
exceptions.py, and otherwise the decoded value is returned verbatim. The
network outcome for the GET with request_params timestamp is the oracle
argument. -/
def get_api_answer (timestamp : PyValue) (net : HttpOutcome) : Except PyExn PyValue :=
  let _params := request_params timestamp
  match net with
  | .requestException e => .error (.connectionError ("Ошибка " ++ e))
  | .response status_code body =>
      if status_code ≠ 200 then
        .error (.customAPIResponseError ("Неуспешный статус ответа API: " ++ toString status_code))
      else
        match body with
        | .error e => .error (.jsonDecodeError ("Ошибка при декодировании JSON: " ++ e))
        | .ok v => .ok v

/-- check_response of homework.py: the payload must be a dict, must contain
the key homeworks, and its value must be a list, which is then returned
unchanged. -/
def check_response (response : PyValue) : Except PyExn (List PyValue) :=
  match response with
  | .dict kvs =>
      if (kvs.lookup "homeworks").isNone then
        .error (.keyError "В ответе нет ключа \"homeworks\"")
      else
        match kvs.lookup "homeworks" with
        | some (.list l) => .ok l
        | some v =>
            .error (.typeError ("Формат ответа не список,получен " ++ pyTypeName v ++ "."))
        | Option.none =>
            .error (.typeError ("Формат ответа не список,получен " ++ pyTypeName PyValue.none ++ "."))
  | v =>
      .error (.typeError ("Неожиданный формат ответа: " ++ pyTypeName v ++ "\nСообщение: " ++ pyStr v))

/-- parse_status of homework.py: collects the missing keys among
homework_name and status, raises KeyError when any is missing (the message
interpolates a generator object, not the key names), raises
HomeworkVerdictNotFound for a status outside HOMEWORK_VERDICTS (the message
keeps the literal placeholder because the first literal is not an
f-string), and otherwise renders the fixed template. -/
def parse_status (homework : PyValue) : Except PyExn String :=
  match pyContains homework "homework_name" with
  | .error e => .error e
  | .ok hasName =>
  match pyContains homework "status" with
  | .error e => .error e
  | .ok hasStatus =>
  let missing_keys :=
    (if hasName then [] else ["homework_name"]) ++ (if hasStatus then [] else ["status"])
  if missing_keys ≠ [] then
    .error (.keyError ("Отсутствует ключ/ключи:" ++ genexprRepr ++ " в ответе API"))
  else
  match pySubscript homework "homework_name" with
  | .error e => .error e
  | .ok homework_name =>
  match pySubscript homework "status" with
  | .error e => .error e
  | .ok status =>
  match pyVerdictsContains HOMEWORK_VERDICTS status with
  | .error e => .error e
  | .ok inVocab =>
  if !inVocab then
    .error (.homeworkVerdictNotFound
      ("Неизвестный статус домашней работы \x7bstatus\x7d." ++
       "Бот работает со следующими статусами:" ++ HOMEWORK_VERDICTS_keysStr ++ "."))
  else
    let verdict :=
      match status with
      | .str s => (HOMEWORK_VERDICTS.lookup s).getD "None"
      | _ => "None"
    .ok ("Изменился статус проверки работы \"" ++ pyStr homework_name ++ "\". " ++ verdict)

/-- One bot.send_message call: consumes the first scripted delivery outcome
from the oracle stream and either returns or raises; an exhausted stream is
read as a successful delivery. -/
def bot_send_message (ds : List DeliveryOutcome) : Except PyExn Unit × List DeliveryOutcome :=
  match ds with
  | [] => (.ok (), [])
  | .delivered :: rest => (.ok (), rest)
  | .raiseTelegram m :: rest => (.error (.telegramError m), rest)
  | .raiseOther m :: rest => (.error (.otherError m), rest)

/-- send_message of homework.py: attempts one delivery; a TelegramError is
caught and logged at error level, any other exception is caught and logged
at error level with a different text, success is logged at debug level.
The Except in the result records whether an exception escapes to the
caller (none ever does). -/
def send_message (message : String) (ds : List DeliveryOutcome) :
    Except PyExn (List LogLine) × List DeliveryOutcome :=
  match bot_send_message ds with
  | (.error e, rest) =>
      if isTelegramError e then
        (.ok [(LogLevel.error, "Сбой при отправке сообщения: " ++ exnStr e)], rest)
      else
        (.ok [(LogLevel.error, "Другая ошибка при отправке сообщения: " ++ exnStr e)], rest)
  | (.ok _, rest) => (.ok [(LogLevel.debug, "Сообщение отправлено: " ++ message)], rest)

/-- The observable result of one iteration of the while-loop of main:
the cursor (the local variable timestamp) and the local variable message
as they stand at the end of the iteration, the log lines emitted, the
arguments of the send_message calls made, the exception escaping the
iteration if any (the process then dies after the final sleep), the
remaining delivery-outcome stream, and the query parameters the
iteration's get_api_answer call used. -/
structure CycleResult where
  timestamp : PyValue
  message : Option String
  logs : List LogLine
  sends : List String
  crash : Option PyExn
  rest : List DeliveryOutcome
  fetchParams : List (String × PyValue)

/-- The two except-clauses at the bottom of the loop body of main, entered
with the exception e, the cursor ts as it stands at that point, and msg the
current binding of the local variable message (none when not yet assigned).
A NotForSendingError is logged with a fresh text; any other exception leads
to send_message(bot, message), which re-raises UnboundLocalError when
message was never assigned; an escaping non-TelegramError from that call
would propagate. -/
def handleLoopError (e : PyExn) (ts : PyValue) (msg : Option String)
    (ds : List DeliveryOutcome) (params : List (String × PyValue)) : CycleResult :=
  if isNotForSendingError e then
    let m := "Сбой в работе программы,не отправленные в телегу: " ++ exnStr e
    ⟨ts, some m, [(LogLevel.error, m)], [], Option.none, ds, params⟩
  else
    match msg with
    | Option.none =>
        ⟨ts, Option.none, [], [], some (.unboundLocalError "message"), ds, params⟩
    | some m =>
        match send_message m ds with
        | (.ok lgs, rest) => ⟨ts, some m, lgs, [m], Option.none, rest, params⟩
        | (.error e2, rest) =>
            if isTelegramError e2 then
              let m2 := "Не удалось отправить в телегу: " ++ exnStr e2
              ⟨ts, some m2, [(LogLevel.error, m2)], [m], Option.none, rest, params⟩
            else
              ⟨ts, some m, [], [m], some e2, rest, params⟩

/-- One iteration of the while-loop of main: fetch with the current cursor,
validate, update the cursor from the payload's current_date, then either
log the no-news message or format the first record, send it and log it;
exceptions fall through to handleLoopError. The network and delivery
oracles script this iteration's external world. -/
def runCycle (ts : PyValue) (msg : Option String) (net : HttpOutcome)
    (ds : List DeliveryOutcome) : CycleResult :=
  let params := request_params ts
  match get_api_answer ts net with
  | .error e => handleLoopError e ts msg ds params
  | .ok response =>
  match check_response response with
  | .error e => handleLoopError e ts msg ds params
  | .ok homeworks =>
  let ts2 := pyDictGetD response "current_date" ts
  if homeworks.isEmpty then
    let m := "Нет новых статусов домашних работ."
    ⟨ts2, some m, [(LogLevel.info, m)], [], Option.none, ds, params⟩
  else
    match check_response response with
    | .error e => handleLoopError e ts2 msg ds params
    | .ok [] => handleLoopError (.indexError "list index out of range") ts2 msg ds params
    | .ok (hw0 :: _) =>
    match parse_status hw0 with
    | .error e => handleLoopError e ts2 msg ds params
    | .ok m =>
        match send_message m ds with
        | (.ok lgs, rest) =>
            ⟨ts2, some m, lgs ++ [(LogLevel.info, m)], [m], Option.none, rest, params⟩
        | (.error e2, rest) => handleLoopError e2 ts2 (some m) rest params

/-- What main does before its loop: a startup exit with a critical log and
exit status 1 (sys.exit with a string argument), or entry into the loop
after a debug log. -/
inductive StartupResult where
  | exit (logs : List LogLine) (exitMessage : String) (exitCode : Nat)
  | enterLoop (logs : List LogLine)
deriving DecidableEq, Repr

/-- The startup section of main: the token check gates entry to the loop. -/
def mainStartup (practicumToken telegramToken telegramChatId : Option String) : StartupResult :=
  if !check_tokens practicumToken telegramToken telegramChatId then
    .exit [(LogLevel.critical, "Отсутствует хотя бы одна переменная окружения")]
      "Аварийный выход, ошибка!" 1
  else
    .enterLoop [(LogLevel.debug, "Переменные окружения доступны")]

/-! Helper lemmas shared by the claim theorems. -/

theorem lookup_any_eq_true (kvs : List (String × PyValue)) (k : String) (v : PyValue)
    (h : kvs.lookup k = some v) : kvs.any (fun kv => kv.1 == k) = true := by
  induction kvs with
  | nil => simp [List.lookup] at h
  | cons a tl ih =>
      rcases a with ⟨a1, a2⟩
      by_cases hk : k = a1
      · subst hk
        simp
      · have hb : (k == a1) = false := beq_eq_false_iff_ne.mpr hk
        have hb2 : (a1 == k) = false := beq_eq_false_iff_ne.mpr (Ne.symm hk)
        simp only [List.lookup, hb] at h
        simp [hb2, ih h]

theorem handleLoopError_timestamp (e : PyExn) (ts : PyValue) (msg : Option String)
    (ds : List DeliveryOutcome) (params : List (String × PyValue)) :
    (handleLoopError e ts msg ds params).timestamp = ts := by
  unfold handleLoopError
  by_cases hn : isNotForSendingError e = true
  · simp [hn]
  · cases msg with
    | none => simp [hn]
    | some m =>
        rcases hsm : send_message m ds with ⟨res, rest⟩
        cases res with
        | ok lgs => simp [hn, hsm]
        | error e2 =>
            by_cases ht : isTelegramError e2 = true <;> simp [hn, hsm, ht]

theorem handleLoopError_fetchParams (e : PyExn) (ts : PyValue) (msg : Option String)
    (ds : List DeliveryOutcome) (params : List (String × PyValue)) :
    (handleLoopError e ts msg ds params).fetchParams = params := by
  unfold handleLoopError
  by_cases hn : isNotForSendingError e = true
  · simp [hn]
  · cases msg with
    | none => simp [hn]
    | some m =>
        rcases hsm : send_message m ds with ⟨res, rest⟩
        cases res with
        | ok lgs => simp [hn, hsm]
        | error e2 =>
            by_cases ht : isTelegramError e2 = true <;> simp [hn, hsm, ht]

/-- C4: for every homework record containing homework_name n and a status s
mapped by HOMEWORK_VERDICTS to verdict v, parse_status returns exactly the
template string with n and v interpolated. -/
theorem c4_format_template (kvs : List (String × PyValue)) (n s v : String)
    (h1 : kvs.lookup "homework_name" = some (.str n))
    (h2 : kvs.lookup "status" = some (.str s))
    (h3 : HOMEWORK_VERDICTS.lookup s = some v) :
    parse_status (.dict kvs) = .ok ("Изменился статус проверки работы \"" ++ n ++ "\". " ++ v) := by
  have a1 := lookup_any_eq_true kvs "homework_name" _ h1
  have a2 := lookup_any_eq_true kvs "status" _ h2
  simp [parse_status, pyContains, a1, a2, pySubscript, h1, h2, pyVerdictsContains, h3, pyStr]

/-- Witness for C4: the record with homework_name hw1 and status approved
produces the exact message of end-to-end scenario A. -/
theorem c4_format_template_witness :
    ([("homework_name", PyValue.str "hw1"), ("status", PyValue.str "approved")].lookup
        "homework_name" = some (PyValue.str "hw1")) ∧
    ([("homework_name", PyValue.str "hw1"), ("status", PyValue.str "approved")].lookup
        "status" = some (PyValue.str "approved")) ∧
    HOMEWORK_VERDICTS.lookup "approved" = some "Работа проверена: ревьюеру всё понравилось. Ура!" ∧
    parse_status (.dict [("homework_name", PyValue.str "hw1"), ("status", PyValue.str "approved")]) =
      .ok "Изменился статус проверки работы \"hw1\". Работа проверена: ревьюеру всё понравилось. Ура!" :=
  ⟨rfl, rfl, rfl,
   c4_format_template _ "hw1" "approved" "Работа проверена: ревьюеру всё понравилось. Ура!" rfl rfl rfl⟩

/-- C6: check_response rejects a non-dict payload with a TypeError naming
the received type, rejects a dict without the homeworks key with a
KeyError, rejects a non-list homeworks value with a TypeError naming its
type, and returns the homeworks list unchanged otherwise. -/
theorem c6_check_response_spec :
    (∀ v : PyValue, isDict v = false →
        check_response v =
          .error (.typeError ("Неожиданный формат ответа: " ++ pyTypeName v ++ "\nСообщение: " ++ pyStr v))) ∧
    (∀ kvs : List (String × PyValue), kvs.lookup "homeworks" = Option.none →
        check_response (.dict kvs) = .error (.keyError "В ответе нет ключа \"homeworks\"")) ∧
    (∀ (kvs : List (String × PyValue)) (v : PyValue),
        kvs.lookup "homeworks" = some v → isList v = false →
        check_response (.dict kvs) =
          .error (.typeError ("Формат ответа не список,получен " ++ pyTypeName v ++ "."))) ∧
    (∀ (kvs : List (String × PyValue)) (l : List PyValue),
        kvs.lookup "homeworks" = some (.list l) →
        check_response (.dict kvs) = .ok l) := by
  refine ⟨fun v hv => ?_, fun kvs h => ?_, fun kvs v h hv => ?_, fun kvs l h => ?_⟩
  · cases v <;> simp_all [check_response, isDict]
  · simp [check_response, h]
  · cases v <;> simp_all [check_response, isList]
  · simp [check_response, h]

/-- Witness for C6: a list payload, a dict without homeworks, a dict whose
homeworks is an int, and a dict with an empty homeworks list each take the
branch the theorem describes. -/
theorem c6_check_response_spec_witness :
    (isDict (PyValue.list []) = false ∧
      check_response (PyValue.list []) =
        .error (.typeError "Неожиданный формат ответа: <class \x27list\x27>\nСообщение: []")) ∧
    (([] : List (String × PyValue)).lookup "homeworks" = Option.none ∧
      check_response (.dict []) = .error (.keyError "В ответе нет ключа \"homeworks\"")) ∧
    ([("homeworks", PyValue.int 3)].lookup "homeworks" = some (PyValue.int 3) ∧
      check_response (.dict [("homeworks", PyValue.int 3)]) =
        .error (.typeError "Формат ответа не список,получен <class \x27int\x27>.")) ∧
    ([("homeworks", PyValue.list [])].lookup "homeworks" = some (PyValue.list []) ∧
      check_response (.dict [("homeworks", PyValue.list [])]) = .ok []) :=
  ⟨⟨rfl, c6_check_response_spec.1 (PyValue.list []) rfl⟩,
   ⟨rfl, c6_check_response_spec.2.1 [] rfl⟩,
   ⟨rfl, c6_check_response_spec.2.2.1 [("homeworks", PyValue.int 3)] (PyValue.int 3) rfl rfl⟩,
   ⟨rfl, c6_check_response_spec.2.2.2 [("homeworks", PyValue.list [])] [] rfl⟩⟩

/-- C8: get_api_answer turns a transport failure into ConnectionError
carrying the cause, a non-200 status into CustomAPIResponseError carrying
the numeric status, an invalid JSON body into JSONDecodeError carrying the
parse detail, and otherwise returns the decoded value verbatim for every
decoded value. -/
theorem c8_get_api_answer_spec :
    (∀ (ts : PyValue) (e : String),
        get_api_answer ts (.requestException e) = .error (.connectionError ("Ошибка " ++ e))) ∧
    (∀ (ts : PyValue) (code : Nat) (body : Except String PyValue), code ≠ 200 →
        get_api_answer ts (.response code body) =
          .error (.customAPIResponseError ("Неуспешный статус ответа API: " ++ toString code))) ∧
    (∀ (ts : PyValue) (e : String),
        get_api_answer ts (.response 200 (.error e)) =
          .error (.jsonDecodeError ("Ошибка при декодировании JSON: " ++ e))) ∧
    (∀ (ts v : PyValue), get_api_answer ts (.response 200 (.ok v)) = .ok v) := by
  refine ⟨fun ts e => rfl, fun ts code body h => ?_, fun ts e => rfl, fun ts v => rfl⟩
  cases ts <;> simp [get_api_answer, h]

/-- Witness for C8: HTTP status 503 (the status of end-to-end scenario C)
yields the upstream-status error carrying 503. -/
theorem c8_get_api_answer_spec_witness :
    (503 : Nat) ≠ 200 ∧
    get_api_answer (.int 0) (.response 503 (.ok PyValue.none)) =
      .error (.customAPIResponseError "Неуспешный статус ответа API: 503") :=
  ⟨by decide, c8_get_api_answer_spec.2.1 (.int 0) 503 (.ok PyValue.none) (by decide)⟩

/-- C9: send_message never lets a delivery exception reach its caller:
each call consumes exactly one delivery outcome (no retry), a TelegramError
or any other delivery exception results in an error-level log line, and a
successful delivery results in a debug-level log line. -/
theorem c9_send_message_never_raises :
    (∀ (m : String) (rest : List DeliveryOutcome),
        send_message m (.delivered :: rest) =
          (.ok [(LogLevel.debug, "Сообщение отправлено: " ++ m)], rest)) ∧
    (∀ (m e : String) (rest : List DeliveryOutcome),
        send_message m (.raiseTelegram e :: rest) =
          (.ok [(LogLevel.error, "Сбой при отправке сообщения: " ++ e)], rest)) ∧
    (∀ (m e : String) (rest : List DeliveryOutcome),
        send_message m (.raiseOther e :: rest) =
          (.ok [(LogLevel.error, "Другая ошибка при отправке сообщения: " ++ e)], rest)) :=
  ⟨fun _ _ => rfl, fun _ _ _ => rfl, fun _ _ _ => rfl⟩

/-- C10: a falsy configuration value, whether an absent environment
variable or one set to the empty string, makes mainStartup take the fatal
path: the critical log line and an immediate exit with a non-zero status,
before the loop. -/
theorem c10_falsy_config_fatal (p t c : Option String)
    (h : p = Option.none ∨ p = some "" ∨ t = Option.none ∨ t = some "" ∨
         c = Option.none ∨ c = some "") :
    mainStartup p t c =
      .exit [(LogLevel.critical, "Отсутствует хотя бы одна переменная окружения")]
        "Аварийный выход, ошибка!" 1 := by
  rcases h with h | h | h | h | h | h <;> subst h <;>
    simp [mainStartup, check_tokens, envTruthy, show ("" : String).isEmpty = true from rfl]

/-- Witness for C10: a present-but-empty API token is fatal. -/
theorem c10_falsy_config_fatal_witness :
    ((some "" : Option String) = Option.none ∨ (some "" : Option String) = some "" ∨
      (some "tok" : Option String) = Option.none ∨ (some "tok" : Option String) = some "" ∨
      (some "42" : Option String) = Option.none ∨ (some "42" : Option String) = some "") ∧
    mainStartup (some "") (some "tok") (some "42") =
      .exit [(LogLevel.critical, "Отсутствует хотя бы одна переменная окружения")]
        "Аварийный выход, ошибка!" 1 :=
  ⟨Or.inr (Or.inl rfl), c10_falsy_config_fatal (some "") (some "tok") (some "42") (Or.inr (Or.inl rfl))⟩

/-- C1 (amended): the cycle sets the cursor to the payload's current_date
(keeping it when the key is absent) whenever fetch and validate both
succeed, even if format or notify subsequently fail; when validate fails,
and when fetch fails, the cursor is left unchanged; and every cycle's fetch
sends from_date equal to the cursor the cycle started with. -/
theorem c1_cursor_update :
    (∀ (ts : PyValue) (msg : Option String) (net : HttpOutcome) (ds : List DeliveryOutcome)
        (resp : PyValue) (hws : List PyValue),
        get_api_answer ts net = .ok resp →
        check_response resp = .ok hws →
        (runCycle ts msg net ds).timestamp = pyDictGetD resp "current_date" ts) ∧
    (∀ (ts : PyValue) (msg : Option String) (net : HttpOutcome) (ds : List DeliveryOutcome)
        (resp : PyValue) (e : PyExn),
        get_api_answer ts net = .ok resp →
        check_response resp = .error e →
        (runCycle ts msg net ds).timestamp = ts) ∧
    (∀ (ts : PyValue) (msg : Option String) (net : HttpOutcome) (ds : List DeliveryOutcome)
        (e : PyExn),
        get_api_answer ts net = .error e →
        (runCycle ts msg net ds).timestamp = ts) ∧
    (∀ (ts : PyValue) (msg : Option String) (net : HttpOutcome) (ds : List DeliveryOutcome),
        (runCycle ts msg net ds).fetchParams = request_params ts) := by
  refine ⟨fun ts msg net ds resp hws hf hc => ?_,
          fun ts msg net ds resp e hf hc => ?_,
          fun ts msg net ds e hf => ?_,
          fun ts msg net ds => ?_⟩
  · cases hws with
    | nil => simp [runCycle, hf, hc]
    | cons h t =>
        rcases hp : parse_status h with e | m
        · simp [runCycle, hf, hc, hp, handleLoopError_timestamp]
        · rcases hs : send_message m ds with ⟨res, rest⟩
          cases res <;> simp [runCycle, hf, hc, hp, hs, handleLoopError_timestamp]
  · simp [runCycle, hf, hc, handleLoopError_timestamp]
  · simp [runCycle, hf, handleLoopError_timestamp]
  · cases hf : get_api_answer ts net with
    | error e => simp [runCycle, hf, handleLoopError_fetchParams, request_params]
    | ok resp =>
        cases hc : check_response resp with
        | error e => simp [runCycle, hf, hc, handleLoopError_fetchParams, request_params]
        | ok hws =>
            cases hws with
            | nil => simp [runCycle, hf, hc, request_params]
            | cons h t =>
                rcases hp : parse_status h with e | m
                · simp [runCycle, hf, hc, hp, handleLoopError_fetchParams, request_params]
                · rcases hs : send_message m ds with ⟨res, rest⟩
                  cases res <;>
                    simp [runCycle, hf, hc, hp, hs, handleLoopError_fetchParams, request_params]

/-- Witness for C1 (amended): end-to-end scenario A, where everything
succeeds and the cursor moves to 100. -/
theorem c1_cursor_update_witness :
    get_api_answer (.int 0)
        (.response 200 (.ok (.dict
          [("homeworks", .list [.dict [("homework_name", .str "hw1"), ("status", .str "approved")]]),
           ("current_date", .int 100)]))) =
      .ok (.dict
        [("homeworks", .list [.dict [("homework_name", .str "hw1"), ("status", .str "approved")]]),
         ("current_date", .int 100)]) ∧
    check_response (.dict
        [("homeworks", .list [.dict [("homework_name", .str "hw1"), ("status", .str "approved")]]),
         ("current_date", .int 100)]) =
      .ok [.dict [("homework_name", .str "hw1"), ("status", .str "approved")]] ∧
    (runCycle (.int 0) Option.none
        (.response 200 (.ok (.dict
          [("homeworks", .list [.dict [("homework_name", .str "hw1"), ("status", .str "approved")]]),
           ("current_date", .int 100)]))) [.delivered]).timestamp =
      pyDictGetD (.dict
        [("homeworks", .list [.dict [("homework_name", .str "hw1"), ("status", .str "approved")]]),
         ("current_date", .int 100)]) "current_date" (.int 0) :=
  ⟨rfl, rfl,
   c1_cursor_update.1 (.int 0) Option.none
     (.response 200 (.ok (.dict
       [("homeworks", .list [.dict [("homework_name", .str "hw1"), ("status", .str "approved")]]),
        ("current_date", .int 100)]))) [.delivered]
     (.dict
       [("homeworks", .list [.dict [("homework_name", .str "hw1"), ("status", .str "approved")]]),
        ("current_date", .int 100)])
     [.dict [("homework_name", .str "hw1"), ("status", .str "approved")]] rfl rfl⟩

/-- C1 counterexample: a cycle whose fetch succeeds with a payload holding
current_date = 5 but whose validate step fails (no homeworks key) leaves
the cursor at 0 instead of setting it to 5, refuting the claim that the
update happens even when validate fails. -/
theorem c1_cursor_counterexample :
    get_api_answer (.int 0) (.response 200 (.ok (.dict [("current_date", .int 5)]))) =
      .ok (.dict [("current_date", .int 5)]) ∧
    ([("current_date", PyValue.int 5)].lookup "current_date" = some (PyValue.int 5)) ∧
    (runCycle (.int 0) (some "x") (.response 200 (.ok (.dict [("current_date", .int 5)])))
        [.delivered]).timestamp = .int 0 ∧
    PyValue.int 0 ≠ PyValue.int 5 := by
  refine ⟨rfl, rfl, rfl, ?_⟩
  intro h
  injection h with h2
  exact absurd h2 (by decide)

/-- C2: a cycle with a previously assigned message whose fetch raises shows
the code diverging from the claim: the caught error is not logged, and the
message passed to the chat is the stale previous message, not the error
text of this cycle's failure. -/
theorem c2_stale_message_resent :
    runCycle (.int 0) (some "старое сообщение") (.requestException "boom") [.delivered] =
      ⟨.int 0, some "старое сообщение",
       [(LogLevel.debug, "Сообщение отправлено: старое сообщение")],
       ["старое сообщение"], Option.none, [], [("from_date", PyValue.int 0)]⟩ ∧
    get_api_answer (.int 0) (.requestException "boom") = .error (.connectionError "Ошибка boom") ∧
    "старое сообщение" ≠ "Ошибка boom" :=
  ⟨rfl, rfl, by decide⟩

/-- C3: on the first cycle, when no message has ever been assigned, a fetch
error reaches the generic handler, whose send_message(bot, message) raises
UnboundLocalError; the exception escapes the cycle and terminates the loop,
refuting the claim that only the startup check can terminate the process. -/
theorem c3_first_cycle_error_crashes :
    (runCycle (.int 0) Option.none (.requestException "boom") []).crash =
      some (.unboundLocalError "message") ∧
    (runCycle (.int 0) Option.none (.requestException "boom") []).logs = [] ∧
    (runCycle (.int 0) Option.none (.requestException "boom") []).sends = [] :=
  ⟨rfl, rfl, rfl⟩

/-- C5: the missing-key error message interpolates a generator object
instead of the missing key names (it never mentions homework_name even when
that key is the absent one), and the unknown-status error message keeps the
literal placeholder text instead of the offending status (it lists the
valid vocabulary but never mentions the status foo). -/
theorem c5_error_messages_omit_offenders :
    parse_status (.dict [("homework_name", PyValue.str "hw1"), ("status", PyValue.str "foo")]) =
      .error (.homeworkVerdictNotFound
        ("Неизвестный статус домашней работы \x7bstatus\x7d." ++
         "Бот работает со следующими статусами:" ++ HOMEWORK_VERDICTS_keysStr ++ ".")) ∧
    strHasSub
      ("Неизвестный статус домашней работы \x7bstatus\x7d." ++
       "Бот работает со следующими статусами:" ++ HOMEWORK_VERDICTS_keysStr ++ ".") "foo" = false ∧
    strHasSub
      ("Неизвестный статус домашней работы \x7bstatus\x7d." ++
       "Бот работает со следующими статусами:" ++ HOMEWORK_VERDICTS_keysStr ++ ".")
      HOMEWORK_VERDICTS_keysStr = true ∧
    parse_status (.dict []) =
      .error (.keyError ("Отсутствует ключ/ключи:" ++ genexprRepr ++ " в ответе API")) ∧
    strHasSub ("Отсутствует ключ/ключи:" ++ genexprRepr ++ " в ответе API") "homework_name" =
      false := by
  refine ⟨rfl, by decide, by decide, rfl, by decide⟩

/-- C7: a cycle whose validated payload has an empty homeworks list logs
exactly the informational no-new-status line, calls send_message not at
all, sets the cursor from current_date, and in particular leaves it
unchanged when the payload has no current_date key. -/
theorem c7_empty_homeworks (ts : PyValue) (msg : Option String) (resp : PyValue)
    (ds : List DeliveryOutcome) (hc : check_response resp = .ok []) :
    (runCycle ts msg (.response 200 (.ok resp)) ds).logs =
      [(LogLevel.info, "Нет новых статусов домашних работ.")] ∧
    (runCycle ts msg (.response 200 (.ok resp)) ds).sends = [] ∧
    (runCycle ts msg (.response 200 (.ok resp)) ds).timestamp =
      pyDictGetD resp "current_date" ts ∧
    (∀ kvs : List (String × PyValue), resp = .dict kvs →
        kvs.lookup "current_date" = Option.none →
        (runCycle ts msg (.response 200 (.ok resp)) ds).timestamp = ts) := by
  have hf : get_api_answer ts (.response 200 (.ok resp)) = .ok resp := rfl
  refine ⟨?_, ?_, ?_, fun kvs hr hl => ?_⟩
  · simp [runCycle, hf, hc]
  · simp [runCycle, hf, hc]
  · simp [runCycle, hf, hc]
  · subst hr
    simp [runCycle, hf, hc, pyDictGetD, hl]

/-- Witness for C7: end-to-end scenario B, a payload with an empty
homeworks list and no current_date key. -/
theorem c7_empty_homeworks_witness :
    check_response (.dict [("homeworks", PyValue.list [])]) = .ok [] ∧
    (runCycle (.int 7) Option.none
        (.response 200 (.ok (.dict [("homeworks", PyValue.list [])]))) []).logs =
      [(LogLevel.info, "Нет новых статусов домашних работ.")] ∧
    (runCycle (.int 7) Option.none
        (.response 200 (.ok (.dict [("homeworks", PyValue.list [])]))) []).sends = [] ∧
    (runCycle (.int 7) Option.none
        (.response 200 (.ok (.dict [("homeworks", PyValue.list [])]))) []).timestamp = .int 7 :=
  ⟨rfl,
   (c7_empty_homeworks (.int 7) Option.none (.dict [("homeworks", PyValue.list [])]) [] rfl).1,
   (c7_empty_homeworks (.int 7) Option.none (.dict [("homeworks", PyValue.list [])]) [] rfl).2.1,
   (c7_empty_homeworks (.int 7) Option.none (.dict [("homeworks", PyValue.list [])]) [] rfl).2.2.2
     [("homeworks", PyValue.list [])] rfl rfl⟩

end HomeBot


